import Mathlib

/-!
Formal model of `src/osquery_profiles.cpp`.

The file embeds the repository's core logic shallowly in Lean:

* `Ptree` models `boost::property_tree::ptree` (a data string plus an
  ordered list of keyed children), with `get`/`get_child` path lookups.
* `runCommand` models the fork/exec helper: the outcome of the external
  process is an explicit `ProcResult`, and the captured output is
  appended to the caller's buffer, exactly as the C++ reference
  parameter `std::string& output` is appended to.
* `usersFromContext`, `parseProfile`, `iterateProfiles` follow the
  functions of the same names; the single `commandOutput` buffer of
  `iterateProfiles` is threaded through the per-user loop.
* `profileRow` / `ProfilesTablePlugin_generate` and `itemRow` /
  `profileItemRows` / `ProfileItemsTablePlugin_generate` model the two
  table plugins' `generate` callbacks.

External collaborators (the osquery SDK's plist parser, the `profiles`
binary, the `users` table) are not part of the repository; they enter as
explicit parameters (`Env.parsePlist`, `Env.exec`, `Directory`).
-/

namespace OsqueryProfiles

/-- A `boost::property_tree::ptree` node: a data string together with an
ordered list of `(key, child)` pairs. -/
inductive Ptree where
  | node (data : String) (children : List (String × Ptree))

/-- The data string stored at a node. -/
def Ptree.data : Ptree → String
  | .node d _ => d

/-- The ordered `(key, child)` list of a node. -/
def Ptree.children : Ptree → List (String × Ptree)
  | .node _ c => c

/-- First child stored under the given key, as `ptree::find`. -/
def Ptree.findKey (t : Ptree) (k : String) : Option Ptree :=
  match t.children.find? (fun kv => kv.1 == k) with
  | some kv => some kv.2
  | none => none

/-- Descend through a list of path components. -/
def Ptree.getChildList : Ptree → List String → Option Ptree
  | t, [] => some t
  | t, k :: ks =>
    match t.findKey k with
    | some c => c.getChildList ks
    | none => none

/-- Split a character list at the dots, as the ptree path separator
does. -/
def splitDots : List Char → List Char → List String
  | [], acc => [String.mk acc.reverse]
  | '.' :: rest, acc => String.mk acc.reverse :: splitDots rest []
  | c :: rest, acc => splitDots rest (c :: acc)

/-- `ptree::get_child(path)`: dot-separated path lookup; `none` models the
`ptree_bad_path` exception. -/
def Ptree.get_child (t : Ptree) (path : String) : Option Ptree :=
  t.getChildList (splitDots path.data [])

/-- `ptree::get<std::string>(path, default)`: the data at `path`, or the
default when the path is absent. -/
def Ptree.get (t : Ptree) (path dflt : String) : String :=
  match t.get_child path with
  | some c => c.data
  | none => dflt

/-- `osquery::Status`: an error code (0 means success) and a message. -/
structure Status where
  code : Nat
  message : String

/-- `Status::ok()`. -/
def Status.ok (s : Status) : Bool := s.code == 0

/-- How the child process ended (the `waitpid` status word). -/
inductive Termination where
  | exited (code : Nat)
  | signaled (sig : Nat)

/-- Outcome of one external invocation: the fork failed, or the process
ran, produced combined stdout/stderr output, and terminated with `term`;
`waitpidOk` records whether the parent's `waitpid` call succeeded in
observing that termination (it can return `-1` — for example `ECHILD`
when the child was already reaped — even though the child exited). -/
inductive ProcResult where
  | forkFailed
  | ran (output : String) (term : Termination) (waitpidOk : Bool)

/-- `runCommand(command, output)`: captures the child's output by
appending it to the caller's buffer (the C++ takes `std::string&` and
calls `output.append`), then returns `waitpid failed` when `waitpid`
returned `-1`, and otherwise reports success only when the process
exited normally with status 0 (`WIFEXITED && WEXITSTATUS == 0`). -/
def runCommand (res : ProcResult) (output : String) : Status × String :=
  match res with
  | .forkFailed => (⟨1, "fork failed"⟩, output)
  | .ran out term waitpidOk =>
    let output := output ++ out
    if waitpidOk = false then
      (⟨1, "waitpid failed"⟩, output)
    else
      match term with
      | .exited 0 => (⟨0, "OK"⟩, output)
      | .exited _ => (⟨1, "subprocess errored"⟩, output)
      | .signaled _ => (⟨1, "subprocess errored"⟩, output)

/-- An osquery `Row`: a string-keyed map, as an association list. -/
abbrev Row := List (String × String)

/-- `row.count(k) > 0 ? row.at(k)` lookup. -/
def Row.get? (r : Row) (k : String) : Option String := List.lookup k r

/-- The part of `QueryContext` this extension reads: the EQUALS
constraints on `username`, and the EQUALS constraint set on
`profile_identifier` (`constraints["profile_identifier"].getAll(EQUALS)`). -/
structure QueryContext where
  usernameEquals : List String
  profileIdentifierEquals : List String

/-- The user-directory collaborator (osquery's `users` table):
`selectAllFrom("users", "username", EQUALS, u)`,
`selectAllFrom("users", "uid", EQUALS, uid)`, `selectAllFrom("users")`,
and the effective uid returned by `getuid()`. -/
structure Directory where
  byUsername : String → List Row
  byUid : String → List Row
  allUsers : List Row
  currentUid : Nat

/-- `usersFromContext(context, all = false)`: with a `username` EQUALS
constraint, collect the directory rows for each constrained username;
otherwise the current user's row, or every user when `all`. -/
def usersFromContext (dir : Directory) (context : QueryContext)
    (all : Bool := false) : List Row :=
  if !context.usernameEquals.isEmpty then
    context.usernameEquals.foldl (fun users expr => users ++ dir.byUsername expr) []
  else if all = false then
    dir.byUid (toString dir.currentUid)
  else
    dir.allUsers

/-- `boost::starts_with` on strings. -/
def starts_with (s pre : String) : Bool := pre.data.isPrefixOf s.data

/-- The fixed diagnostic prefix the `profiles` tool prints for an unknown
user. -/
def userNotFoundSentinel : String := "profiles: the user could not be found"

/-- `parseProfile(commandOutput, username, callback)`: abort on the
user-not-found sentinel; otherwise parse the plist, take the root child
named by the username (or `_computerlevel` for system scope) — absent
root is the error `No profiles` — and feed each of its children to the
callback. A document the plist parser rejects contributes nothing and is
not an error. The callback threads an explicit state `σ` in place of the
C++ closure's captured references. -/
def parseProfile {σ : Type} (parsePlist : String → Option Ptree)
    (commandOutput username : String)
    (callback : String → Ptree → σ → σ) (st : σ) : Status × σ :=
  if starts_with commandOutput userNotFoundSentinel then
    (⟨1, "User not found"⟩, st)
  else
    let rootKey := if username.length > 0 then username else "_computerlevel"
    match parsePlist commandOutput with
    | some tree =>
      match tree.get_child rootKey with
      | none => (⟨1, "No profiles"⟩, st)
      | some root =>
        (⟨0, "OK"⟩, root.children.foldl (fun s it => callback username it.2 s) st)
    | none => (⟨0, "OK"⟩, st)

/-- The world outside the repository: the external tool (`exec` gives the
outcome of one argv), the SDK's `parsePlistContent`, and the user
directory. -/
structure Env where
  exec : List String → ProcResult
  parsePlist : String → Option Ptree
  dir : Directory

/-- The per-user loop of `iterateProfiles`. The `commandOutput` buffer is
a single variable declared outside this loop in the C++, so it is
threaded from one iteration to the next, never cleared; `runCommand`
appends to it. A failed invocation skips the user; a parse error status
is returned immediately. -/
def iterateUsers {σ : Type} (env : Env) (callback : String → Ptree → σ → σ) :
    List Row → String → σ → Status × σ
  | [], _, st => (⟨0, "OK"⟩, st)
  | row :: rest, commandOutput, st =>
    match Row.get? row "username" with
    | none => iterateUsers env callback rest commandOutput st
    | some username =>
      let command := ["/usr/bin/profiles", "-L", "-o", "stdout-xml", "-U", username]
      match runCommand (env.exec command) commandOutput with
      | (s, commandOutput) =>
        if s.ok then
          match parseProfile env.parsePlist commandOutput username callback st with
          | (result, st) =>
            if result.ok then
              iterateUsers env callback rest commandOutput st
            else
              (result, st)
        else
          iterateUsers env callback rest commandOutput st

/-- `iterateProfiles(request, callback)`: a `username` constraint that is
absent or matches `""` selects the system-wide branch (one `-C`
invocation, root `_computerlevel`); otherwise the per-user branch over
`usersFromContext`. -/
def iterateProfiles {σ : Type} (env : Env) (request : QueryContext)
    (callback : String → Ptree → σ → σ) (st : σ) : Status × σ :=
  if request.usernameEquals.isEmpty || request.usernameEquals.all (fun e => e == "") then
    match runCommand (env.exec ["/usr/bin/profiles", "-C", "-o", "stdout-xml"]) "" with
    | (s, commandOutput) =>
      if s.ok then
        match parseProfile env.parsePlist commandOutput "" callback st with
        | (result, st) => if result.ok then (⟨0, "OK"⟩, st) else (result, st)
      else
        (⟨0, "OK"⟩, st)
  else
    iterateUsers env callback (usersFromContext env.dir request) "" st

/-- The `INTEGER(x)` macro: decimal rendering. -/
def INTEGER (n : Nat) : String := toString n

/-- The row built by `ProfilesTablePlugin::generate` for one visited
profile node. -/
def profileRow (username : String) (profile : Ptree) : Row :=
  [("username", username),
   ("identifier", profile.get "ProfileIdentifier" ""),
   ("display_name", profile.get "ProfileDisplayName" ""),
   ("description", profile.get "ProfileDescription" ""),
   ("organization", profile.get "ProfileOrganization" ""),
   ("type", profile.get "ProfileType" ""),
   ("verified",
     if profile.get "ProfileVerificationState" "" == "verified"
     then INTEGER 1 else INTEGER 0),
   ("removal_allowed",
     if profile.get "ProfileRemovalDisallowed" "" == "true"
     then INTEGER 0 else INTEGER 1)]

/-- `ProfilesTablePlugin::generate`: run the iteration, pushing one row
per visited profile, and return the accumulated rows whatever the
iteration's status was. -/
def ProfilesTablePlugin_generate (env : Env) (request : QueryContext) : List Row :=
  (iterateProfiles env request (fun u p results => results ++ [profileRow u p]) []).2

/-- JSON escaping of one character as boost's writer does for the
characters exercised here. -/
def jsonEscapeChar (c : Char) : String :=
  if c = '"' then "\\\"" else if c = '\\' then "\\\\" else String.singleton c

/-- JSON escaping of a string. -/
def jsonEscape (s : String) : String := String.join (s.data.map jsonEscapeChar)

/-- A JSON string literal. -/
def jsonQuote (s : String) : String := "\"" ++ jsonEscape s ++ "\""

mutual

/-- One-line JSON rendering of a ptree, following
`boost::property_tree::write_json(stream, tree, pretty = false)`: a
childless node is a quoted scalar, children all keyed `""` form an
array, otherwise an object. -/
def jsonOfTree : Ptree → String
  | .node d [] => jsonQuote d
  | .node _ (kv :: kvs) =>
    if (kv :: kvs).all (fun p => p.1 == "") then
      "[" ++ jsonOfItems (kv :: kvs) ++ "]"
    else
      "\x7b" ++ jsonOfMembers (kv :: kvs) ++ "\x7d"

/-- Comma-separated array elements. -/
def jsonOfItems : List (String × Ptree) → String
  | [] => ""
  | [(_, t)] => jsonOfTree t
  | (_, t) :: kv :: kvs => jsonOfTree t ++ "," ++ jsonOfItems (kv :: kvs)

/-- Comma-separated object members. -/
def jsonOfMembers : List (String × Ptree) → String
  | [] => ""
  | [(k, t)] => jsonQuote k ++ ":" ++ jsonOfTree t
  | (k, t) :: kv :: kvs =>
    jsonQuote k ++ ":" ++ jsonOfTree t ++ "," ++ jsonOfMembers (kv :: kvs)

end

/-- `write_json(buf, tree, false)`: the one-line rendering followed by
the writer's unconditional `std::endl`. -/
def write_json (t : Ptree) : String := jsonOfTree t ++ "\n"

/-- Whitespace set of `boost::algorithm::trim_right`. -/
def isSpaceChar (c : Char) : Bool :=
  c = ' ' || c = '\t' || c = '\n' || c = '\x0b' || c = '\x0c' || c = '\r'

/-- `boost::algorithm::trim_right`. -/
def trim_right (s : String) : String :=
  String.mk ((s.data.reverse.dropWhile isSpaceChar).reverse)

/-- The row built by `ProfileItemsTablePlugin::generate` for one payload
of a wanted profile. The `content` column serializes the payload's
`PayloadContent` subtree (empty when that child is absent) and trims
trailing whitespace. Note that the C++ never assigns `r["username"]`
here. -/
def itemRow (identifier : String) (payload : Ptree) : Row :=
  let content :=
    match payload.get_child "PayloadContent" with
    | some sub => trim_right (write_json sub)
    | none => ""
  [("profile_identifier", identifier),
   ("type", payload.get "PayloadType" ""),
   ("identifier", payload.get "PayloadIdentifier" ""),
   ("display_name", payload.get "PayloadDisplayName" ""),
   ("description", payload.get "PayloadDescription" ""),
   ("organization", payload.get "PayloadOrganization" ""),
   ("content", content)]

/-- The body of `ProfileItemsTablePlugin::generate`'s callback for one
visited profile: skip it unless its identifier is in `wantedProfiles`,
then emit one row per child of its `ProfileItems` subtree (none when
that subtree is absent). -/
def profileItemRows (wantedProfiles : List String) (_username : String)
    (profile : Ptree) : List Row :=
  let identifier := profile.get "ProfileIdentifier" ""
  if wantedProfiles.contains identifier then
    match profile.get_child "ProfileItems" with
    | none => []
    | some payloads => payloads.children.map (fun it => itemRow identifier it.2)
  else
    []

/-- `ProfileItemsTablePlugin::generate`. -/
def ProfileItemsTablePlugin_generate (env : Env) (request : QueryContext) : List Row :=
  let wantedProfiles := request.profileIdentifierEquals
  (iterateProfiles env request
    (fun u p results => results ++ profileItemRows wantedProfiles u p) []).2

/-- Modelled from the spec: the round-trip deserialization check of
testable property 6 ("the emitted content field deserializes back to an
equivalent mapping"). The repository contains no JSON reader, so this is
a reader for flat JSON objects with string values and no escapes, enough
to deserialize the serializations at issue. Reads a quoted string,
returning it with the remaining characters. -/
def readQuotedAux : List Char → List Char → Option (String × List Char)
  | [], _ => none
  | '"' :: rest, acc => some (String.mk acc.reverse, rest)
  | c :: rest, acc => readQuotedAux rest (c :: acc)

/-- Modelled from the spec: expects an opening quote, then delegates to
`readQuotedAux`. -/
def readQuoted : List Char → Option (String × List Char)
  | '"' :: rest => readQuotedAux rest []
  | _ => none

/-- Modelled from the spec: reads `"k":"v"` members separated by commas
up to the closing brace. Fueled to keep the recursion structural. -/
def readMembers : Nat → List Char → Option (List (String × String))
  | 0, _ => none
  | fuel + 1, cs =>
    match readQuoted cs with
    | none => none
    | some (k, rest) =>
      match rest with
      | ':' :: rest2 =>
        match readQuoted rest2 with
        | none => none
        | some (v, rest3) =>
          match rest3 with
          | ['\x7d'] => some [(k, v)]
          | ',' :: rest4 =>
            match readMembers fuel rest4 with
            | some tl => some ((k, v) :: tl)
            | none => none
          | _ => none
      | _ => none

/-- Modelled from the spec: deserialize a flat JSON object into its list
of string members. -/
def parseFlatObj (s : String) : Option (List (String × String)) :=
  match s.data with
  | '\x7b' :: rest =>
    match rest with
    | ['\x7d'] => some []
    | _ => readMembers (rest.length + 1) rest
  | _ => none

/-- A directory row for one username. -/
def userRow (u : String) : Row := [("username", u)]

/-- A directory with no users at all. -/
def emptyDir : Directory :=
  { byUsername := fun _ => []
    byUid := fun _ => []
    allUsers := []
    currentUid := 0 }

/-- A directory knowing exactly the users `alice` and `bob`. -/
def dirAB : Directory :=
  { byUsername := fun u =>
      if u = "alice" then [userRow "alice"]
      else if u = "bob" then [userRow "bob"]
      else []
    byUid := fun _ => []
    allUsers := [userRow "alice", userRow "bob"]
    currentUid := 501 }

/-- A profile node with identifier `p1`. -/
def profA : Ptree := .node "" [("ProfileIdentifier", .node "p1" [])]

/-- A profile node with identifier `p2`. -/
def profB : Ptree := .node "" [("ProfileIdentifier", .node "p2" [])]

/-- Alice's own tool output parsed: root key `alice` over one profile. -/
def treeA : Ptree := .node "" [("alice", .node "" [("", profA)])]

/-- Bob's own tool output parsed: root key `bob` over one profile. -/
def treeB : Ptree := .node "" [("bob", .node "" [("", profB)])]

/-- A parsed document without an `alice` root key. -/
def treeNoAlice : Ptree := .node "" [("someoneelse", .node "" [("", profA)])]

/-- Scenario for C1: both per-user invocations succeed, alice's document
parses but has no `alice` root key, bob's own document is fine. -/
def envC1 : Env :=
  { exec := fun cmd =>
      if cmd = ["/usr/bin/profiles", "-L", "-o", "stdout-xml", "-U", "alice"] then
        .ran "OUTA" (.exited 0) true
      else if cmd = ["/usr/bin/profiles", "-L", "-o", "stdout-xml", "-U", "bob"] then
        .ran "OUTB" (.exited 0) true
      else .forkFailed
    parsePlist := fun s =>
      if s = "OUTA" then some treeNoAlice
      else if s = "OUTB" then some treeB
      else none
    dir := dirAB }

/-- A username constraint resolving to alice and then bob. -/
def reqAliceBob : QueryContext := ⟨["alice", "bob"], []⟩

/-- Callback recording the usernames under which profiles are visited. -/
def visitedNames : String → Ptree → List String → List String :=
  fun u _ acc => acc ++ [u]

/-- A parsed system-scope document without a `_computerlevel` root key. -/
def treeNoComputerlevel : Ptree := .node "" [("other", .node "" [])]

/-- System-scope scenario whose document parses but lacks the
`_computerlevel` root key. -/
def envC1w : Env :=
  { exec := fun _ => .ran "SYSDOC" (.exited 0) true
    parsePlist := fun s => if s = "SYSDOC" then some treeNoComputerlevel else none
    dir := emptyDir }

/-- Scenario for C2: alice's invocation outputs `A`, bob's outputs `B`;
each parses on its own, their concatenation `AB` does not. -/
def envC2 : Env :=
  { exec := fun cmd =>
      if cmd = ["/usr/bin/profiles", "-L", "-o", "stdout-xml", "-U", "alice"] then
        .ran "A" (.exited 0) true
      else if cmd = ["/usr/bin/profiles", "-L", "-o", "stdout-xml", "-U", "bob"] then
        .ran "B" (.exited 0) true
      else .forkFailed
    parsePlist := fun s =>
      if s = "A" then some treeA
      else if s = "B" then some treeB
      else none
    dir := dirAB }

/-- Callback recording each visited (username, profile identifier). -/
def collectIdents : String → Ptree → List (String × String) → List (String × String) :=
  fun u p acc => acc ++ [(u, Ptree.get p "ProfileIdentifier" "")]

/-- A payload node of type `t`. -/
def payloadC3 : Ptree := .node "" [("PayloadType", .node "t" [])]

/-- A profile with identifier `p1` holding one payload. -/
def profC3 : Ptree :=
  .node "" [("ProfileIdentifier", .node "p1" []),
            ("ProfileItems", .node "" [("", payloadC3)])]

/-- Alice's parsed document for the items scenario. -/
def treeC3 : Ptree := .node "" [("alice", .node "" [("", profC3)])]

/-- Scenario for C3: a per-user query for alice whose document holds one
wanted profile with one payload. -/
def envC3 : Env :=
  { exec := fun cmd =>
      if cmd = ["/usr/bin/profiles", "-L", "-o", "stdout-xml", "-U", "alice"] then
        .ran "DOC3" (.exited 0) true
      else .forkFailed
    parsePlist := fun s => if s = "DOC3" then some treeC3 else none
    dir := dirAB }

/-- Constraints: username alice, wanted profile `p1`. -/
def reqC3 : QueryContext := ⟨["alice"], ["p1"]⟩

/-- A payload inside the first example profile. -/
def payload41 : Ptree := .node "" [("PayloadType", .node "t1" [])]

/-- A payload inside the second example profile. -/
def payload42 : Ptree := .node "" [("PayloadType", .node "t2" [])]

/-- A profile with identifier `com.example.profile1`. -/
def prof41 : Ptree :=
  .node "" [("ProfileIdentifier", .node "com.example.profile1" []),
            ("ProfileItems", .node "" [("", payload41)])]

/-- A profile with identifier `com.example.other`. -/
def prof42 : Ptree :=
  .node "" [("ProfileIdentifier", .node "com.example.other" []),
            ("ProfileItems", .node "" [("", payload42)])]

/-- A system-scope document holding the two example profiles. -/
def treeC4 : Ptree :=
  .node "" [("_computerlevel", .node "" [("", prof41), ("", prof42)])]

/-- Scenario for C4: a system-scope query over the two example
profiles. -/
def envC4 : Env :=
  { exec := fun cmd =>
      if cmd = ["/usr/bin/profiles", "-C", "-o", "stdout-xml"] then
        .ran "DOC4" (.exited 0) true
      else .forkFailed
    parsePlist := fun s => if s = "DOC4" then some treeC4 else none
    dir := emptyDir }

/-- No username constraint; wanted identifier set `com.example.profile1`. -/
def reqC4 : QueryContext := ⟨[], ["com.example.profile1"]⟩

/-- No username constraint; empty wanted identifier set. -/
def reqC4empty : QueryContext := ⟨[], []⟩

/-- The `PayloadContent` subtree `mapping Key to Value` of testable
property 6. -/
def contentKV : Ptree := .node "" [("Key", .node "Value" [])]

/-- A payload whose `PayloadContent` subtree is `contentKV`. -/
def payloadKV : Ptree := .node "" [("PayloadContent", contentKV)]

/-- Scenario for C10: alice's document is fine, but the accumulated
buffer parsed for bob lacks a `bob` root key, so the fetch aborts after
alice's rows were gathered. -/
def envC10 : Env :=
  { exec := fun cmd =>
      if cmd = ["/usr/bin/profiles", "-L", "-o", "stdout-xml", "-U", "alice"] then
        .ran "A" (.exited 0) true
      else if cmd = ["/usr/bin/profiles", "-L", "-o", "stdout-xml", "-U", "bob"] then
        .ran "B" (.exited 0) true
      else .forkFailed
    parsePlist := fun s =>
      if s = "A" then some treeA
      else if s = "AB" then some (Ptree.node "" [])
      else none
    dir := dirAB }

/-- Scenario for C10: the tool prints its user-not-found sentinel for
alice (and exits 0), so the fetch aborts with zero rows gathered. -/
def envC10s : Env :=
  { exec := fun cmd =>
      if cmd = ["/usr/bin/profiles", "-L", "-o", "stdout-xml", "-U", "alice"] then
        .ran "profiles: the user could not be found for -U alice" (.exited 0) true
      else .forkFailed
    parsePlist := fun _ => none
    dir := dirAB }

/-- A username constraint naming a user absent from the directory. -/
def reqGhost : QueryContext := ⟨["ghost"], []⟩

/-- A profile node whose removal-disallowed field is the string `True`
(differing from `true` only in case). -/
def profTrueCase : Ptree :=
  .node "" [("ProfileRemovalDisallowed", .node "True" [])]


/-- Rows reached by folding an appending callback over a child list come
from the start state or from the callback's function. -/
theorem mem_foldl_append (f : String → Ptree → List Row) (u : String)
    (l : List (String × Ptree)) (s : List Row) (r : Row)
    (h : r ∈ l.foldl (fun acc it => acc ++ f u it.2) s) :
    r ∈ s ∨ ∃ p, r ∈ f u p := by
  induction l generalizing s with
  | nil => exact Or.inl h
  | cons hd tl ih =>
    rcases ih (s ++ f u hd.2) h with h1 | h1
    · rcases List.mem_append.mp h1 with h2 | h2
      · exact Or.inl h2
      · exact Or.inr ⟨hd.2, h2⟩
    · exact Or.inr h1

/-- Rows in the state produced by `parseProfile` with an appending
callback come from the start state or from the callback's function. -/
theorem mem_parseProfile (pp : String → Option Ptree) (out u : String)
    (f : String → Ptree → List Row) (s : List Row) (r : Row)
    (h : r ∈ (parseProfile pp out u (fun u p rs => rs ++ f u p) s).2) :
    r ∈ s ∨ ∃ us p, r ∈ f us p := by
  unfold parseProfile at h
  by_cases hs : starts_with out userNotFoundSentinel = true
  · simp only [hs, if_true] at h
    exact Or.inl h
  · simp only [hs, if_false, Bool.false_eq_true] at h
    cases hpp : pp out with
    | none => simp only [hpp] at h; exact Or.inl h
    | some tree =>
      simp only [hpp] at h
      cases hgc : tree.get_child (if u.length > 0 then u else "_computerlevel") with
      | none => simp only [hgc] at h; exact Or.inl h
      | some root =>
        simp only [hgc] at h
        rcases mem_foldl_append f u root.children s r h with h1 | h1
        · exact Or.inl h1
        · exact Or.inr ⟨u, h1⟩

/-- Rows in the state produced by the per-user loop with an appending
callback come from the start state or from the callback's function. -/
theorem mem_iterateUsers (env : Env) (f : String → Ptree → List Row)
    (users : List Row) (buf : String) (s : List Row) (r : Row)
    (h : r ∈ (iterateUsers env (fun u p rs => rs ++ f u p) users buf s).2) :
    r ∈ s ∨ ∃ us p, r ∈ f us p := by
  induction users generalizing buf s with
  | nil => exact Or.inl h
  | cons row rest ih =>
    rw [iterateUsers] at h
    cases hu : Row.get? row "username" with
    | none =>
      simp only [hu] at h
      exact ih _ _ h
    | some username =>
      simp only [hu] at h
      rcases hrc : runCommand
          (env.exec ["/usr/bin/profiles", "-L", "-o", "stdout-xml", "-U", username]) buf
        with ⟨s1, buf1⟩
      simp only [hrc] at h
      by_cases hok : s1.ok = true
      · rw [if_pos hok] at h
        rcases hpp : parseProfile env.parsePlist buf1 username (fun u p rs => rs ++ f u p) s
          with ⟨res, st1⟩
        simp only [hpp] at h
        by_cases hres : res.ok = true
        · rw [if_pos hres] at h
          rcases ih buf1 st1 h with h1 | h1
          · exact mem_parseProfile env.parsePlist buf1 username f s r (by rw [hpp]; exact h1)
          · exact Or.inr h1
        · rw [if_neg hres] at h
          exact mem_parseProfile env.parsePlist buf1 username f s r (by rw [hpp]; exact h)
      · rw [if_neg hok] at h
        exact ih _ _ h

/-- Rows in the state produced by `iterateProfiles` with an appending
callback come from the start state or from the callback's function. -/
theorem mem_iterateProfiles (env : Env) (req : QueryContext)
    (f : String → Ptree → List Row) (s : List Row) (r : Row)
    (h : r ∈ (iterateProfiles env req (fun u p rs => rs ++ f u p) s).2) :
    r ∈ s ∨ ∃ us p, r ∈ f us p := by
  unfold iterateProfiles at h
  split at h
  · rcases hrc : runCommand (env.exec ["/usr/bin/profiles", "-C", "-o", "stdout-xml"]) ""
      with ⟨s1, buf1⟩
    simp only [hrc] at h
    by_cases hok : s1.ok = true
    · rw [if_pos hok] at h
      rcases hpp : parseProfile env.parsePlist buf1 "" (fun u p rs => rs ++ f u p) s
        with ⟨res, st1⟩
      simp only [hpp] at h
      by_cases hres : res.ok = true
      · rw [if_pos hres] at h
        exact mem_parseProfile env.parsePlist buf1 "" f s r (by rw [hpp]; exact h)
      · rw [if_neg hres] at h
        exact mem_parseProfile env.parsePlist buf1 "" f s r (by rw [hpp]; exact h)
    · rw [if_neg hok] at h
      exact Or.inl h
  · exact mem_iterateUsers env f _ "" s r h

/-- Every row returned by the `profiles` table is the projection
`profileRow` of some visited username and profile node. -/
theorem mem_profiles_generate (env : Env) (req : QueryContext) (r : Row)
    (h : r ∈ ProfilesTablePlugin_generate env req) :
    ∃ us p, r = profileRow us p := by
  rcases mem_iterateProfiles env req (fun u p => [profileRow u p]) [] r h with h1 | h1
  · cases h1
  · rcases h1 with ⟨us, p, hm⟩
    exact ⟨us, p, List.mem_singleton.mp hm⟩

/-- Every row returned by the `profile_items` table comes from
`profileItemRows` applied to the requested identifier set and some
visited profile node. -/
theorem mem_items_generate (env : Env) (req : QueryContext) (r : Row)
    (h : r ∈ ProfileItemsTablePlugin_generate env req) :
    ∃ us p, r ∈ profileItemRows req.profileIdentifierEquals us p := by
  rcases mem_iterateProfiles env req (profileItemRows req.profileIdentifierEquals) [] r h
    with h1 | h1
  · cases h1
  · exact h1


/-- Every row produced by `profileItemRows` is the projection `itemRow`
of the profile identifier and some payload node. -/
theorem mem_profileItemRows (w : List String) (u : String) (p : Ptree) (r : Row)
    (h : r ∈ profileItemRows w u p) :
    ∃ ident payload, r = itemRow ident payload := by
  unfold profileItemRows at h
  by_cases hc : w.contains (Ptree.get p "ProfileIdentifier" "") = true
  · rw [if_pos hc] at h
    cases hgc : Ptree.get_child p "ProfileItems" with
    | none =>
      rw [hgc] at h
      cases h
    | some payloads =>
      rw [hgc] at h
      rcases List.mem_map.mp h with ⟨it, _, heq⟩
      exact ⟨_, it.2, heq.symm⟩
  · rw [if_neg hc] at h
    cases h


/-- Evaluation of `runCommand` on a run observed by a successful
`waitpid` whose child exited 0: success, with the output appended to the
buffer. -/
theorem runCommand_exit_zero_eq (out buf : String) :
    runCommand (ProcResult.ran out (Termination.exited 0) true) buf =
      (⟨0, "OK"⟩, buf ++ out) := rfl

/-- When the sentinel is absent, the document parses, and the root key
is missing, `parseProfile` returns the error status `No profiles` and
leaves the state untouched. -/
theorem parseProfile_missing_root {σ : Type} (pp : String → Option Ptree)
    (out u : String) (cb : String → Ptree → σ → σ) (st : σ) (t : Ptree)
    (hns : starts_with out userNotFoundSentinel = false)
    (hp : pp out = some t)
    (habs : Ptree.get_child t (if u.length > 0 then u else "_computerlevel") = none) :
    parseProfile pp out u cb st = (⟨1, "No profiles"⟩, st) := by
  unfold parseProfile
  simp only [hns, Bool.false_eq_true, if_false, hp, habs]

/-- C1 (amended): a parsed document whose root key (the username, or
`_computerlevel` for system scope) is structurally absent does not yield
a silent empty result: `parseProfile` returns the error `No profiles`,
and in a system-scope fetch whose tool invocation succeeded and whose
document parsed, `iterateProfiles` propagates that error, aborting the
fetch. The structurally-absent root key is thus treated like the
user-not-found sentinel, not silently. -/
theorem C1_missing_root_aborts :
    (∀ {σ : Type} (pp : String → Option Ptree) (out u : String)
      (cb : String → Ptree → σ → σ) (st : σ) (t : Ptree),
      starts_with out userNotFoundSentinel = false →
      pp out = some t →
      Ptree.get_child t (if u.length > 0 then u else "_computerlevel") = none →
      parseProfile pp out u cb st = (⟨1, "No profiles"⟩, st))
    ∧ (∀ {σ : Type} (env : Env) (req : QueryContext)
      (cb : String → Ptree → σ → σ) (st : σ) (out : String) (t : Ptree),
      req.usernameEquals = [] →
      env.exec ["/usr/bin/profiles", "-C", "-o", "stdout-xml"] =
        ProcResult.ran out (Termination.exited 0) true →
      starts_with out userNotFoundSentinel = false →
      env.parsePlist out = some t →
      Ptree.get_child t "_computerlevel" = none →
      iterateProfiles env req cb st = (⟨1, "No profiles"⟩, st)) := by
  constructor
  · intro σ pp out u cb st t hns hp habs
    exact parseProfile_missing_root pp out u cb st t hns hp habs
  · intro σ env req cb st out t hsys hexec hns hp habs
    unfold iterateProfiles
    rw [hsys]
    simp only [List.isEmpty_nil, Bool.true_or, reduceIte]
    rw [hexec]
    have hout : ("" : String) ++ out = out := rfl
    simp only [runCommand_exit_zero_eq, hout]
    rw [parseProfile_missing_root env.parsePlist out "" cb st t hns hp habs]
    rfl

/-- Witness for C1 (amended) at a concrete system-scope scenario. -/
theorem C1_missing_root_aborts_witness :
    iterateProfiles envC1w (⟨[], []⟩ : QueryContext)
      visitedNames ([] : List String) = (⟨1, "No profiles"⟩, []) :=
  C1_missing_root_aborts.2 envC1w ⟨[], []⟩ visitedNames [] "SYSDOC"
    treeNoComputerlevel rfl rfl rfl rfl rfl

/-- C1 as stated is false: in a concrete per-user fetch whose first
document parses but lacks the `alice` root key, `iterateProfiles`
returns the error status `No profiles` instead of continuing silently
with the remaining users and returning overall success; no profile is
visited. -/
theorem C1_counterexample :
    (iterateProfiles envC1 reqAliceBob visitedNames ([] : List String)).1 =
      ⟨1, "No profiles"⟩
    ∧ (iterateProfiles envC1 reqAliceBob visitedNames ([] : List String)).2 = []
    ∧ envC1.parsePlist "OUTA" = some treeNoAlice
    ∧ Ptree.get_child treeNoAlice "alice" = none := by
  refine ⟨rfl, rfl, rfl, rfl⟩


/-- C2 fails on the code: with users alice and bob resolved, alice's
invocation outputs `A` and bob's outputs `B`, yet the text parsed for
bob is the accumulated buffer `AB` (the `commandOutput` variable is
declared outside the loop and `runCommand` appends to it). Bob's own
output `B` parses to a document with a `bob` root key holding profile
`p2`, but the iteration silently ends with only alice's profile
visited. -/
theorem C2_stale_buffer_parsed_for_later_user :
    (iterateProfiles envC2 reqAliceBob collectIdents []).2 = [("alice", "p1")]
    ∧ (iterateProfiles envC2 reqAliceBob collectIdents []).1.ok = true
    ∧ envC2.parsePlist "B" = some treeB
    ∧ Ptree.get_child treeB "bob" = some (Ptree.node "" [("", profB)])
    ∧ Ptree.get profB "ProfileIdentifier" "" = "p2"
    ∧ envC2.parsePlist ("A" ++ "B") = none := by
  refine ⟨rfl, rfl, rfl, rfl, rfl, rfl⟩

/-- C3 fails on the code: `ProfileItemsTablePlugin::generate` never
assigns the `username` column, so an item row visited under username
`alice` carries no username field at all — in general no `itemRow`
has one — contradicting the declared `profile_items` schema. -/
theorem C3_item_rows_lack_username :
    ProfileItemsTablePlugin_generate envC3 reqC3 = [itemRow "p1" payloadC3]
    ∧ Row.get? (itemRow "p1" payloadC3) "username" = none
    ∧ (∀ ident payload, Row.get? (itemRow ident payload) "username" = none) := by
  refine ⟨rfl, rfl, fun ident payload => rfl⟩

/-- C4: item rows are emitted only for profiles whose identifier is a
member of the wanted identifier set: a profile whose identifier is not
contained yields no rows, the empty set yields no rows for any profile,
and in the two-profile scenario of the spec only
`com.example.profile1`'s payload is emitted while the empty set emits
nothing. -/
theorem C4_wanted_identifier_filter :
    (∀ w u p, w.contains (Ptree.get p "ProfileIdentifier" "") = false →
      profileItemRows w u p = [])
    ∧ (∀ u p, profileItemRows [] u p = [])
    ∧ ProfileItemsTablePlugin_generate envC4 reqC4 = [itemRow "com.example.profile1" payload41]
    ∧ ProfileItemsTablePlugin_generate envC4 reqC4empty = [] := by
  refine ⟨?_, ?_, rfl, rfl⟩
  · intro w u p h
    unfold profileItemRows
    simp only [h, Bool.false_eq_true, if_false]
  · intro u p
    rfl

/-- Witness for C4 at a concrete non-member profile. -/
theorem C4_wanted_identifier_filter_witness :
    profileItemRows ["a"] "u" (Ptree.node "" []) = [] :=
  C4_wanted_identifier_filter.1 ["a"] "u" (Ptree.node "" []) rfl

/-- C5: every row the `profiles` view emits is `profileRow` of the
visited username and node, and its `verified` column is `1` exactly
when the raw `ProfileVerificationState` equals `verified` and `0`
otherwise, in particular `0` when the field is absent. -/
theorem C5_verified_column :
    (∀ env req r, r ∈ ProfilesTablePlugin_generate env req → ∃ us p, r = profileRow us p)
    ∧ (∀ u p, Row.get? (profileRow u p) "verified" =
        some (if Ptree.get p "ProfileVerificationState" "" == "verified" then "1" else "0"))
    ∧ (∀ u p, Ptree.get_child p "ProfileVerificationState" = none →
        Row.get? (profileRow u p) "verified" = some "0") := by
  refine ⟨mem_profiles_generate, fun u p => rfl, fun u p h => ?_⟩
  have hg : Ptree.get p "ProfileVerificationState" "" = "" := by
    unfold Ptree.get
    rw [h]
  calc Row.get? (profileRow u p) "verified"
      = some (if Ptree.get p "ProfileVerificationState" "" == "verified" then "1" else "0") :=
        rfl
    _ = some "0" := by rw [hg]; decide

/-- Witness for C5 at a concrete emitted row and a concrete node
without the verification field. -/
theorem C5_verified_column_witness :
    (∃ us p, profileRow "alice" profA = profileRow us p)
    ∧ Row.get? (profileRow "carol" (Ptree.node "" [])) "verified" = some "0" :=
  ⟨C5_verified_column.1 envC2 reqAliceBob (profileRow "alice" profA)
      (List.mem_singleton.mpr rfl),
    C5_verified_column.2.2 "carol" (Ptree.node "" []) rfl⟩

/-- C6: the `removal_allowed` column is `0` exactly when the raw
`ProfileRemovalDisallowed` field equals the literal string `true`, and
`1` otherwise — for an absent field and also for the differently-cased
`True` (the match is exact and case-sensitive). -/
theorem C6_removal_allowed_column :
    (∀ u p, Row.get? (profileRow u p) "removal_allowed" =
        some (if Ptree.get p "ProfileRemovalDisallowed" "" == "true" then "0" else "1"))
    ∧ (∀ u p, Ptree.get_child p "ProfileRemovalDisallowed" = none →
        Row.get? (profileRow u p) "removal_allowed" = some "1")
    ∧ (∀ u p, Ptree.get p "ProfileRemovalDisallowed" "" = "True" →
        Row.get? (profileRow u p) "removal_allowed" = some "1") := by
  refine ⟨fun u p => rfl, fun u p h => ?_, fun u p h => ?_⟩
  · have hg : Ptree.get p "ProfileRemovalDisallowed" "" = "" := by
      unfold Ptree.get
      rw [h]
    calc Row.get? (profileRow u p) "removal_allowed"
        = some (if Ptree.get p "ProfileRemovalDisallowed" "" == "true" then "0" else "1") :=
          rfl
      _ = some "1" := by rw [hg]; decide
  · calc Row.get? (profileRow u p) "removal_allowed"
        = some (if Ptree.get p "ProfileRemovalDisallowed" "" == "true" then "0" else "1") :=
          rfl
      _ = some "1" := by rw [h]; decide

/-- Witness for C6 at a concrete node whose raw field is `True`. -/
theorem C6_removal_allowed_column_witness :
    Row.get? (profileRow "dave" profTrueCase) "removal_allowed" = some "1" :=
  C6_removal_allowed_column.2.2 "dave" profTrueCase rfl

/-- C7 as stated is false: for a run whose child terminated normally
with exit status 0 but whose `waitpid` call failed (src lines 115-117),
`runCommand` returns the failure status `waitpid failed` rather than
success. -/
theorem C7_counterexample :
    (runCommand (ProcResult.ran "captured output" (Termination.exited 0) false) "").1 =
      ⟨1, "waitpid failed"⟩ := rfl

/-- C7 (amended): `runCommand` reports a success status exactly when
`waitpid` succeeded and the spawned process terminated normally with
exit status 0; an exit status of 2 yields failure regardless of the
captured output and of the `waitpid` outcome, and a failed `waitpid`
yields failure even for a child that exited 0. -/
theorem C7_run_ok_iff_waitpid_and_exit_zero :
    (∀ res buf, (runCommand res buf).1.ok = true ↔
      ∃ out, res = ProcResult.ran out (Termination.exited 0) true)
    ∧ (∀ out buf w,
        (runCommand (ProcResult.ran out (Termination.exited 2) w) buf).1.ok = false)
    ∧ (∀ out buf,
        (runCommand (ProcResult.ran out (Termination.exited 0) false) buf).1.ok = false) := by
  refine ⟨?_, ?_, ?_⟩
  · intro res buf
    constructor
    · intro h
      cases res with
      | forkFailed => simp [runCommand, Status.ok] at h
      | ran out term w =>
        cases w with
        | false => simp [runCommand, Status.ok] at h
        | true =>
          cases term with
          | exited c =>
            cases c with
            | zero => exact ⟨out, rfl⟩
            | succ n => simp [runCommand, Status.ok] at h
          | signaled sig => simp [runCommand, Status.ok] at h
    · rintro ⟨out, rfl⟩
      rfl
  · intro out buf w
    cases w <;> rfl
  · intro out buf
    rfl

/-- Witness for C7 (amended) at a concrete exit-status-2 run observed by
a successful `waitpid`. -/
theorem C7_run_ok_iff_waitpid_and_exit_zero_witness :
    (runCommand (ProcResult.ran "diagnostic output" (Termination.exited 2) true) "").1.ok
      = false :=
  C7_run_ok_iff_waitpid_and_exit_zero.2.1 "diagnostic output" "" true

/-- C8: with a requested username, `usersFromContext` returns exactly
the directory entries for that username whatever the `all` flag is
(empty when the directory has none, with no error); with no requested
username it returns the current effective uid's entry when `all` is
false and every known user when `all` is true. -/
theorem C8_usersFromContext_resolution :
    (∀ dir u pids all, usersFromContext dir ⟨[u], pids⟩ all = dir.byUsername u)
    ∧ (∀ dir pids, usersFromContext dir ⟨[], pids⟩ false =
        dir.byUid (toString dir.currentUid))
    ∧ (∀ dir pids, usersFromContext dir ⟨[], pids⟩ true = dir.allUsers) := by
  refine ⟨fun dir u pids all => rfl, fun dir pids => rfl, fun dir pids => rfl⟩

/-- C9: every row the `profile_items` view emits is an `itemRow`, whose
`content` field is the compact JSON serialization of the payload's
`PayloadContent` subtree with trailing whitespace trimmed — the empty
string when that subtree is absent — and for the subtree mapping `Key`
to `Value` the serialized content deserializes back to that same
mapping, with no trailing whitespace. -/
theorem C9_content_column :
    (∀ env req r, r ∈ ProfileItemsTablePlugin_generate env req →
      ∃ ident payload, r = itemRow ident payload)
    ∧ (∀ ident payload, Row.get? (itemRow ident payload) "content" =
      some (match Ptree.get_child payload "PayloadContent" with
            | some sub => trim_right (write_json sub)
            | none => ""))
    ∧ Row.get? (itemRow "p" payloadKV) "content" = some "\x7b\"Key\":\"Value\"\x7d"
    ∧ write_json contentKV = "\x7b\"Key\":\"Value\"\x7d\n"
    ∧ trim_right (write_json contentKV) = "\x7b\"Key\":\"Value\"\x7d"
    ∧ parseFlatObj "\x7b\"Key\":\"Value\"\x7d" = some [("Key", "Value")]
    ∧ (Ptree.children contentKV).map (fun kv => (kv.1, Ptree.data kv.2)) =
        [("Key", "Value")] := by
  refine ⟨?_, fun ident payload => rfl, rfl, rfl, rfl, rfl, rfl⟩
  intro env req r h
  rcases mem_items_generate env req r h with ⟨us, p, hm⟩
  exact mem_profileItemRows req.profileIdentifierEquals us p r hm

/-- Witness for C9 at a concrete emitted item row. -/
theorem C9_content_column_witness :
    ∃ ident payload, itemRow "p1" payloadC3 = itemRow ident payload :=
  C9_content_column.1 envC3 reqC3 (itemRow "p1" payloadC3) (List.mem_singleton.mpr rfl)

/-- C10: both views return the accumulated row state of the iteration
and discard its status, so a fetch aborting with `No profiles` after
alice's rows still returns exactly those rows, a fetch aborting on the
user-not-found sentinel returns the (empty) rows gathered before it,
and a constraint naming a user absent from the directory returns an
empty row set. -/
theorem C10_views_return_partial_rows :
    (∀ env req, ProfilesTablePlugin_generate env req =
      (iterateProfiles env req (fun u p results => results ++ [profileRow u p]) []).2)
    ∧ (∀ env req, ProfileItemsTablePlugin_generate env req =
      (iterateProfiles env req
        (fun u p results => results ++ profileItemRows req.profileIdentifierEquals u p) []).2)
    ∧ (iterateProfiles envC10 reqAliceBob
        (fun u p results => results ++ [profileRow u p]) ([] : List Row)).1 =
        ⟨1, "No profiles"⟩
    ∧ ProfilesTablePlugin_generate envC10 reqAliceBob = [profileRow "alice" profA]
    ∧ (iterateProfiles envC10s reqAliceBob
        (fun u p results => results ++ [profileRow u p]) ([] : List Row)).1 =
        ⟨1, "User not found"⟩
    ∧ ProfilesTablePlugin_generate envC10s reqAliceBob = []
    ∧ ProfilesTablePlugin_generate envC10 reqGhost = []
    ∧ ProfileItemsTablePlugin_generate envC10 reqGhost = [] := by
  exact ⟨fun env req => rfl, fun env req => rfl, rfl, rfl, rfl, rfl, rfl, rfl⟩

end OsqueryProfiles
